import Mathlib

/-!
Shallow embedding of `snmputil/client.go` (package snmputil).

The file models the profile validation and client-construction logic of
`NewClient`, together with the closures `authCheck` and `v3auth` it
declares, faithfully to the Go source:

* Go strings are `String`; Go `len(s) < 1` is kept literally as
  `s.length < 1`.
* The `gosnmp` enumeration constants referenced by the source
  (`SnmpV3AuthProtocol`, `SnmpV3PrivProtocol`, `SnmpV3MsgFlags`,
  `SnmpVersion`, `SnmpV3SecurityModel`) are `Nat` constants with the
  values of the soniah/gosnmp library; their Go zero value is `0`,
  which is distinct from every named constant of the auth/priv
  protocol enumerations (those start at 1).
* Go `int` / `int64` are `Int`; the conversion `uint16(x)` is
  `x % 65536` (Go truncates to the low 16 bits, and `Int.emod` agrees
  with that on negative values), and the `time.Duration`
  multiplication `time.Duration(t) * time.Second` wraps in signed
  64-bit arithmetic, modelled by `int64wrap (t * 1000000000)`.
* The mutable closure-captured variables `ok`, `aProto`, `pProto`,
  `msgFlags` of `NewClient` are passed explicitly: `authCheck` takes
  the current value of `aProto` and returns its new value together
  with the error, and `v3auth` takes the initial `aProto` (the zero
  value `0` from `var aProto gosnmp.SnmpV3AuthProtocol`) and returns
  the final `msgFlags` alongside its two results.
* In the statements `return &gosnmp.UsmSecurityParameters{...},
  authCheck()` of the Go source, the standard Go toolchain evaluates
  the return operands left to right, so the composite literal reads
  the captured variable `aProto` *before* `authCheck()` runs and
  assigns it; the embedding therefore builds the record from the
  pre-call value of `aProto` and only then applies `authCheck`.
* `client.Connect()` is external I/O; `NewClient` is parameterised by
  a `connect` function returning `Option String` (an engine error or
  success), and the Go pair `(*gosnmp.GoSNMP, error)` becomes
  `Option ClientConfig × Option BuildError`.  The `Debug` logger hook
  and the diagnostic `log.Printf` calls affect no returned value and
  are not modelled.
-/

namespace Snmputil

/-- The six sentinel error values declared at the top of client.go. -/
inductive SnmpErr where
  | ErrBadUser
  | ErrBadPassword
  | ErrBadProtocol
  | ErrLevel
  | ErrPrivacy
  | ErrVersion
deriving DecidableEq, Repr

-- Constants of the external gosnmp library referenced by client.go.
namespace gosnmp

def NoAuth : Nat := 1
def MD5 : Nat := 2
def SHA : Nat := 3

def NoPriv : Nat := 1
def DES : Nat := 2
def AES : Nat := 3

def NoAuthNoPriv : Nat := 0
def AuthNoPriv : Nat := 1
def AuthPriv : Nat := 3

def Version1 : Nat := 0
def Version2c : Nat := 1
def Version3 : Nat := 3

def UserSecurityModel : Nat := 3

end gosnmp

def defaultPort : Int := 161

/-- The `authProto` lookup table: name → `gosnmp.SnmpV3AuthProtocol`. -/
def authProto (s : String) : Option Nat :=
  if s = "NoAuth" then some gosnmp.NoAuth
  else if s = "MD5" then some gosnmp.MD5
  else if s = "SHA" then some gosnmp.SHA
  else none

/-- The `privacy` lookup table: name → `gosnmp.SnmpV3PrivProtocol`. -/
def privacy (s : String) : Option Nat :=
  if s = "NoPriv" then some gosnmp.NoPriv
  else if s = "DES" then some gosnmp.DES
  else if s = "AES" then some gosnmp.AES
  else none

/-- The input record `Profile` of client.go. -/
structure Profile where
  Host : String := ""
  Community : String := ""
  Version : String := ""
  Port : Int := 0
  Timeout : Int := 0
  Retries : Int := 0
  SecLevel : String := ""
  AuthUser : String := ""
  AuthPass : String := ""
  AuthProto : String := ""
  PrivProto : String := ""
  PrivPass : String := ""
deriving DecidableEq, Repr

/-- `gosnmp.UsmSecurityParameters`, with Go zero values as defaults
(`0` is the zero value of the protocol enumerations, distinct from
`gosnmp.NoAuth = 1` and `gosnmp.NoPriv = 1`). -/
structure UsmSecurityParameters where
  UserName : String := ""
  AuthenticationProtocol : Nat := 0
  AuthenticationPassphrase : String := ""
  PrivacyProtocol : Nat := 0
  PrivacyPassphrase : String := ""
deriving DecidableEq, Repr

/-- The fields of `gosnmp.GoSNMP` that client.go populates, with Go
zero values as defaults.  `Port` holds the `uint16` value, `Timeout`
the `time.Duration` (signed 64-bit nanoseconds). -/
structure ClientConfig where
  Target : String := ""
  Port : Int := 0
  Timeout : Int := 0
  Retries : Int := 0
  Version : Nat := 0
  Community : String := ""
  MsgFlags : Nat := 0
  SecurityModel : Nat := 0
  SecurityParameters : Option UsmSecurityParameters := none
deriving DecidableEq, Repr

/-- The overall error of `NewClient`: a validation sentinel, or an
error surfaced verbatim from `client.Connect()`. -/
inductive BuildError where
  | validation (e : SnmpErr)
  | engine (msg : String)
deriving DecidableEq, Repr

/-- Go `uint16(x)` for an `int` argument: the low 16 bits. -/
def uint16of (x : Int) : Int := x % 65536

/-- Reduce an integer to the signed 64-bit value Go arithmetic yields. -/
def int64wrap (x : Int) : Int :=
  let r := x % 18446744073709551616
  if r < 9223372036854775808 then r else r - 18446744073709551616

/-- The closure `authCheck` of client.go.  It reads `p.AuthPass` and
`p.AuthProto` and assigns the captured `aProto` on a successful table
lookup (a failed Go map lookup assigns the zero value `0`).  Returns
the new value of `aProto` and the error. -/
def authCheck (p : Profile) (aProto : Nat) : Nat × Option SnmpErr :=
  if p.AuthPass.length < 1 then
    (aProto, some SnmpErr.ErrBadPassword)
  else
    match authProto p.AuthProto with
    | some a => (a, none)
    | none => (0, some SnmpErr.ErrBadProtocol)

/-- The closure `v3auth` of client.go, taking the initial value of the
captured `aProto` (which `NewClient` declares as the zero value `0`)
and returning `(usmParams, err, msgFlags)`.

In the `AuthNoPriv` and `AuthPriv` branches the Go statement
`return &gosnmp.UsmSecurityParameters{...}, authCheck()` evaluates its
operands left to right: the record is built from the value `aProto`
holds *before* `authCheck` runs. -/
def v3auth (p : Profile) (aProto : Nat) :
    Option UsmSecurityParameters × Option SnmpErr × Nat :=
  if p.AuthUser.length < 1 then
    (none, some SnmpErr.ErrBadUser, 0)
  else if p.SecLevel = "NoAuthNoPriv" then
    (some { UserName := p.AuthUser
            AuthenticationProtocol := gosnmp.NoAuth
            PrivacyProtocol := gosnmp.NoPriv },
     none, gosnmp.NoAuthNoPriv)
  else if p.SecLevel = "AuthNoPriv" then
    let params : UsmSecurityParameters :=
      { UserName := p.AuthUser
        AuthenticationProtocol := aProto
        AuthenticationPassphrase := p.AuthPass
        PrivacyProtocol := gosnmp.NoPriv }
    (some params, (authCheck p aProto).2, gosnmp.AuthNoPriv)
  else if p.SecLevel = "AuthPriv" then
    if p.PrivPass.length < 1 then
      (none, some SnmpErr.ErrPrivacy, gosnmp.AuthPriv)
    else
      match privacy p.PrivProto with
      | none => (none, some SnmpErr.ErrBadPassword, gosnmp.AuthPriv)
      | some pProto =>
          let params : UsmSecurityParameters :=
            { UserName := p.AuthUser
              AuthenticationProtocol := aProto
              AuthenticationPassphrase := p.AuthPass
              PrivacyProtocol := pProto
              PrivacyPassphrase := p.PrivPass }
          (some params, (authCheck p aProto).2, gosnmp.AuthPriv)
  else
    (none, some SnmpErr.ErrLevel, 0)

/-- The local variable `client` of `NewClient` after the port
defaulting `if p.Port == 0 { p.Port = defaultPort }` that precedes its
construction. -/
def baseClient (p : Profile) : ClientConfig :=
  { Target := p.Host
    Port := uint16of (if p.Port = 0 then defaultPort else p.Port)
    Timeout := int64wrap (p.Timeout * 1000000000)
    Retries := p.Retries }

/-- `NewClient` of client.go, parameterised by the external engine's
`Connect` operation.  Returns the Go pair `(*gosnmp.GoSNMP, error)` as
`(Option ClientConfig, Option BuildError)`. -/
def NewClient (p : Profile) (connect : ClientConfig → Option String) :
    Option ClientConfig × Option BuildError :=
  if p.Version = "1" then
    let c := { baseClient p with Version := gosnmp.Version1, Community := p.Community }
    (some c, (connect c).map BuildError.engine)
  else if p.Version = "2" ∨ p.Version = "2c" then
    let c := { baseClient p with Version := gosnmp.Version2c, Community := p.Community }
    (some c, (connect c).map BuildError.engine)
  else if p.Version = "3" then
    match v3auth p 0 with
    | (usmParams, err, msgFlags) =>
        match err with
        | some e => (none, some (BuildError.validation e))
        | none =>
            let c := { baseClient p with
                       MsgFlags := msgFlags
                       SecurityModel := gosnmp.UserSecurityModel
                       SecurityParameters := usmParams
                       Version := gosnmp.Version3 }
            (some c, (connect c).map BuildError.engine)
  else
    (none, some (BuildError.validation SnmpErr.ErrVersion))

/-- A connect function that always succeeds, for concrete evaluations. -/
def connOk : ClientConfig → Option String := fun _ => none

/-- A connect function that always fails, used to show the engine's
outcome is irrelevant on validation-failure paths. -/
def connBoom : ClientConfig → Option String := fun _ => some "connection refused"

/-- Go's `len(s) < 1` test holds exactly for the empty string. -/
theorem length_lt_one_iff (s : String) : s.length < 1 ↔ s = "" := by
  constructor
  · intro h
    cases s with
    | mk data =>
      cases data with
      | nil => rfl
      | cons a l => simp [String.length] at h
  · intro h
    subst h
    decide

/-- An error produced by mapping `BuildError.engine` over a connect
outcome is never a validation sentinel. -/
theorem map_engine_ne_validation (o : Option String) (e : SnmpErr) :
    o.map BuildError.engine ≠ some (BuildError.validation e) := by
  cases o <;> simp

/-- Every config `NewClient` hands out carries the target, port,
timeout and retries of the `client` local it was built from. -/
theorem newClient_base (p : Profile) (connect : ClientConfig → Option String)
    (c : ClientConfig) (h : (NewClient p connect).1 = some c) :
    c.Target = (baseClient p).Target ∧ c.Port = (baseClient p).Port ∧
    c.Timeout = (baseClient p).Timeout ∧ c.Retries = (baseClient p).Retries := by
  unfold NewClient at h
  split at h
  · simp at h
    subst h
    exact ⟨rfl, rfl, rfl, rfl⟩
  · split at h
    · simp at h
      subst h
      exact ⟨rfl, rfl, rfl, rfl⟩
    · split at h
      · rcases hr : v3auth p 0 with ⟨params, err, flags⟩
        rw [hr] at h
        cases err with
        | some e => simp at h
        | none =>
          simp at h
          subst h
          exact ⟨rfl, rfl, rfl, rfl⟩
      · simp at h

/-- For values already in signed 64-bit range the wrap is the identity. -/
theorem int64wrap_of_bounds (x : Int) (h1 : -9223372036854775808 ≤ x)
    (h2 : x < 9223372036854775808) : int64wrap x = x := by
  simp only [int64wrap]
  split <;> omega

/-- Claim C1: for a version-3 profile that passes validation at level
AuthNoPriv, the claim says the SecurityParameters handed to the client
carry the identifier looked up for the profile's auth algorithm name.
The code disagrees: at the concrete profile below validation succeeds
(the returned error is `none`), the table lookup of "SHA" yields
`gosnmp.SHA`, yet the AuthenticationProtocol field handed out is `0`,
the enumeration's zero value, because the Go `return` statement builds
the record before `authCheck()` assigns the looked-up value to
`aProto`. -/
theorem c1_resolved_auth_protocol_dropped :
    ((NewClient { Version := "3", SecLevel := "AuthNoPriv", AuthUser := "u",
                  AuthPass := "pw", AuthProto := "SHA" } connOk).2 = none) ∧
    (((NewClient { Version := "3", SecLevel := "AuthNoPriv", AuthUser := "u",
                   AuthPass := "pw", AuthProto := "SHA" } connOk).1.bind
        ClientConfig.SecurityParameters).map UsmSecurityParameters.AuthenticationProtocol
      = some 0) ∧
    authProto "SHA" = some gosnmp.SHA ∧ gosnmp.SHA ≠ 0 := by
  refine ⟨rfl, rfl, rfl, ?_⟩
  decide

/-- Claim C2, counterexample: at a version-3 AuthPriv profile whose
auth passphrase and privacy passphrase are both empty, the claim
demands `ErrBadPassword` (auth passphrase checked first), but the code
checks the privacy passphrase first and returns `ErrPrivacy`. -/
theorem c2_auth_priv_order_counterexample :
    NewClient { Version := "3", SecLevel := "AuthPriv", AuthUser := "u",
                AuthPass := "", AuthProto := "MD5",
                PrivPass := "", PrivProto := "DES" } connOk
      = (none, some (BuildError.validation SnmpErr.ErrPrivacy)) ∧
    SnmpErr.ErrPrivacy ≠ SnmpErr.ErrBadPassword := by
  constructor
  · rfl
  · decide

/-- Claim C2, amended: for every version-3 AuthPriv profile,
validation returns the first failure in this order: empty username →
ErrBadUser; empty privacy passphrase → ErrPrivacy; unrecognized
privacy algorithm name → ErrBadPassword; empty auth passphrase →
ErrBadPassword; unrecognized auth algorithm name → ErrBadProtocol;
otherwise the build succeeds with message-flags AuthPriv (the privacy
checks run before the auth checks). -/
theorem c2_auth_priv_validation_amended (p : Profile)
    (connect : ClientConfig → Option String)
    (hv : p.Version = "3") (hl : p.SecLevel = "AuthPriv") :
    (p.AuthUser = "" →
      NewClient p connect = (none, some (BuildError.validation SnmpErr.ErrBadUser))) ∧
    (p.AuthUser ≠ "" → p.PrivPass = "" →
      NewClient p connect = (none, some (BuildError.validation SnmpErr.ErrPrivacy))) ∧
    (p.AuthUser ≠ "" → p.PrivPass ≠ "" → privacy p.PrivProto = none →
      NewClient p connect = (none, some (BuildError.validation SnmpErr.ErrBadPassword))) ∧
    (p.AuthUser ≠ "" → p.PrivPass ≠ "" → (privacy p.PrivProto).isSome → p.AuthPass = "" →
      NewClient p connect = (none, some (BuildError.validation SnmpErr.ErrBadPassword))) ∧
    (p.AuthUser ≠ "" → p.PrivPass ≠ "" → (privacy p.PrivProto).isSome →
      p.AuthPass ≠ "" → authProto p.AuthProto = none →
      NewClient p connect = (none, some (BuildError.validation SnmpErr.ErrBadProtocol))) ∧
    (p.AuthUser ≠ "" → p.PrivPass ≠ "" → p.AuthPass ≠ "" →
      ∀ pr : Nat, privacy p.PrivProto = some pr → (authProto p.AuthProto).isSome →
      ∃ c : ClientConfig,
        NewClient p connect = (some c, (connect c).map BuildError.engine) ∧
        c.MsgFlags = gosnmp.AuthPriv ∧
        c.SecurityParameters = some { UserName := p.AuthUser,
                                      AuthenticationProtocol := 0,
                                      AuthenticationPassphrase := p.AuthPass,
                                      PrivacyProtocol := pr,
                                      PrivacyPassphrase := p.PrivPass }) := by
  refine ⟨?_, ?_, ?_, ?_, ?_, ?_⟩
  · intro hu
    have hu1 : p.AuthUser.length < 1 := (length_lt_one_iff _).mpr hu
    simp [NewClient, v3auth, hv, hl, hu1]
  · intro hu hpp
    have hu1 : ¬ (p.AuthUser.length < 1) := fun h => hu ((length_lt_one_iff _).mp h)
    have hpp1 : p.PrivPass.length < 1 := (length_lt_one_iff _).mpr hpp
    simp [NewClient, v3auth, hv, hl, hu1, hpp1]
  · intro hu hpp hpr
    have hu1 : ¬ (p.AuthUser.length < 1) := fun h => hu ((length_lt_one_iff _).mp h)
    have hpp1 : ¬ (p.PrivPass.length < 1) := fun h => hpp ((length_lt_one_iff _).mp h)
    simp [NewClient, v3auth, hv, hl, hu1, hpp1, hpr]
  · intro hu hpp hpr hp
    have hu1 : ¬ (p.AuthUser.length < 1) := fun h => hu ((length_lt_one_iff _).mp h)
    have hpp1 : ¬ (p.PrivPass.length < 1) := fun h => hpp ((length_lt_one_iff _).mp h)
    have hp1 : p.AuthPass.length < 1 := (length_lt_one_iff _).mpr hp
    obtain ⟨pr, hpr2⟩ := Option.isSome_iff_exists.mp hpr
    simp [NewClient, v3auth, authCheck, hv, hl, hu1, hpp1, hpr2, hp1]
  · intro hu hpp hpr hp ha
    have hu1 : ¬ (p.AuthUser.length < 1) := fun h => hu ((length_lt_one_iff _).mp h)
    have hpp1 : ¬ (p.PrivPass.length < 1) := fun h => hpp ((length_lt_one_iff _).mp h)
    have hp1 : ¬ (p.AuthPass.length < 1) := fun h => hp ((length_lt_one_iff _).mp h)
    obtain ⟨pr, hpr2⟩ := Option.isSome_iff_exists.mp hpr
    simp [NewClient, v3auth, authCheck, hv, hl, hu1, hpp1, hpr2, hp1, ha]
  · intro hu hpp hp pr hpr2 ha
    have hu1 : ¬ (p.AuthUser.length < 1) := fun h => hu ((length_lt_one_iff _).mp h)
    have hpp1 : ¬ (p.PrivPass.length < 1) := fun h => hpp ((length_lt_one_iff _).mp h)
    have hp1 : ¬ (p.AuthPass.length < 1) := fun h => hp ((length_lt_one_iff _).mp h)
    obtain ⟨a, ha2⟩ := Option.isSome_iff_exists.mp ha
    refine ⟨{ baseClient p with
              Version := gosnmp.Version3,
              MsgFlags := gosnmp.AuthPriv,
              SecurityModel := gosnmp.UserSecurityModel,
              SecurityParameters := some { UserName := p.AuthUser,
                                           AuthenticationProtocol := 0,
                                           AuthenticationPassphrase := p.AuthPass,
                                           PrivacyProtocol := pr,
                                           PrivacyPassphrase := p.PrivPass } }, ?_, rfl, rfl⟩
    simp [NewClient, v3auth, authCheck, hv, hl, hu1, hpp1, hpr2, hp1, ha2]

/-- Claim C2 witness: the amended cascade applied at a fully valid
AuthPriv profile yields a config whose message-flags are AuthPriv. -/
theorem c2_auth_priv_validation_amended_witness :
    ((NewClient { Version := "3", SecLevel := "AuthPriv", AuthUser := "u",
                  AuthPass := "pw", AuthProto := "MD5",
                  PrivPass := "ppw", PrivProto := "AES" } connOk).1.map
        ClientConfig.MsgFlags) = some gosnmp.AuthPriv := by
  obtain ⟨c, hc, hm, -⟩ :=
    (c2_auth_priv_validation_amended
        { Version := "3", SecLevel := "AuthPriv", AuthUser := "u",
          AuthPass := "pw", AuthProto := "MD5",
          PrivPass := "ppw", PrivProto := "AES" } connOk rfl rfl).2.2.2.2.2
      (by decide) (by decide) (by decide) gosnmp.AES rfl (by decide)
  rw [hc]
  simp [hm]

/-- Claim C3, counterexample: a version-3 profile with an unrecognized
security level and an empty username fails with ErrBadUser, not with
ErrLevel as the claim demands — the username check precedes the
security-level dispatch. -/
theorem c3_empty_user_level_counterexample :
    NewClient { Version := "3", SecLevel := "Bogus", AuthUser := "" } connOk
      = (none, some (BuildError.validation SnmpErr.ErrBadUser)) ∧
    SnmpErr.ErrBadUser ≠ SnmpErr.ErrLevel := by
  constructor
  · rfl
  · decide

/-- Claim C3, amended: for every version-3 profile whose security
level is none of the three recognized tags, the build fails with
ErrLevel whenever the username is non-empty, regardless of all other
fields; when the username is empty, ErrBadUser takes precedence. -/
theorem c3_unrecognized_level_amended (p : Profile)
    (connect : ClientConfig → Option String) (hv : p.Version = "3")
    (h1 : p.SecLevel ≠ "NoAuthNoPriv") (h2 : p.SecLevel ≠ "AuthNoPriv")
    (h3 : p.SecLevel ≠ "AuthPriv") :
    (p.AuthUser ≠ "" →
      NewClient p connect = (none, some (BuildError.validation SnmpErr.ErrLevel))) ∧
    (p.AuthUser = "" →
      NewClient p connect = (none, some (BuildError.validation SnmpErr.ErrBadUser))) := by
  constructor
  · intro hu
    have hu1 : ¬ (p.AuthUser.length < 1) := fun h => hu ((length_lt_one_iff _).mp h)
    simp [NewClient, v3auth, hv, hu1, h1, h2, h3]
  · intro hu
    have hu1 : p.AuthUser.length < 1 := (length_lt_one_iff _).mpr hu
    simp [NewClient, v3auth, hv, hu1]

/-- Claim C3 witness: a version-3 profile with non-empty username and
the unrecognized level "Level42" fails with ErrLevel. -/
theorem c3_unrecognized_level_amended_witness :
    NewClient { Version := "3", SecLevel := "Level42", AuthUser := "u" } connOk
      = (none, some (BuildError.validation SnmpErr.ErrLevel)) :=
  (c3_unrecognized_level_amended
      { Version := "3", SecLevel := "Level42", AuthUser := "u" } connOk
      rfl (by decide) (by decide) (by decide)).1 (by decide)

/-- Claim C4: for every version-3 AuthNoPriv profile, an empty
username gives ErrBadUser; otherwise an empty auth passphrase gives
ErrBadPassword (even when the auth algorithm name is also
unrecognized, since no lookup-validity condition is needed for that
branch); otherwise an auth algorithm name outside the closed table
gives ErrBadProtocol; otherwise the build succeeds with message-flags
AuthNoPriv. -/
theorem c4_auth_no_priv_validation (p : Profile)
    (connect : ClientConfig → Option String)
    (hv : p.Version = "3") (hl : p.SecLevel = "AuthNoPriv") :
    (p.AuthUser = "" →
      NewClient p connect = (none, some (BuildError.validation SnmpErr.ErrBadUser))) ∧
    (p.AuthUser ≠ "" → p.AuthPass = "" →
      NewClient p connect = (none, some (BuildError.validation SnmpErr.ErrBadPassword))) ∧
    (p.AuthUser ≠ "" → p.AuthPass ≠ "" → authProto p.AuthProto = none →
      NewClient p connect = (none, some (BuildError.validation SnmpErr.ErrBadProtocol))) ∧
    (p.AuthUser ≠ "" → p.AuthPass ≠ "" → (authProto p.AuthProto).isSome →
      ∃ c : ClientConfig,
        NewClient p connect = (some c, (connect c).map BuildError.engine) ∧
        c.MsgFlags = gosnmp.AuthNoPriv ∧
        c.SecurityParameters = some { UserName := p.AuthUser,
                                      AuthenticationProtocol := 0,
                                      AuthenticationPassphrase := p.AuthPass,
                                      PrivacyProtocol := gosnmp.NoPriv,
                                      PrivacyPassphrase := "" }) := by
  refine ⟨?_, ?_, ?_, ?_⟩
  · intro hu
    have hu1 : p.AuthUser.length < 1 := (length_lt_one_iff _).mpr hu
    simp [NewClient, v3auth, hv, hl, hu1]
  · intro hu hp
    have hu1 : ¬ (p.AuthUser.length < 1) := fun h => hu ((length_lt_one_iff _).mp h)
    have hp1 : p.AuthPass.length < 1 := (length_lt_one_iff _).mpr hp
    simp [NewClient, v3auth, authCheck, hv, hl, hu1, hp1]
  · intro hu hp ha
    have hu1 : ¬ (p.AuthUser.length < 1) := fun h => hu ((length_lt_one_iff _).mp h)
    have hp1 : ¬ (p.AuthPass.length < 1) := fun h => hp ((length_lt_one_iff _).mp h)
    simp [NewClient, v3auth, authCheck, hv, hl, hu1, hp1, ha]
  · intro hu hp ha
    have hu1 : ¬ (p.AuthUser.length < 1) := fun h => hu ((length_lt_one_iff _).mp h)
    have hp1 : ¬ (p.AuthPass.length < 1) := fun h => hp ((length_lt_one_iff _).mp h)
    obtain ⟨a, ha2⟩ := Option.isSome_iff_exists.mp ha
    refine ⟨{ baseClient p with
              Version := gosnmp.Version3,
              MsgFlags := gosnmp.AuthNoPriv,
              SecurityModel := gosnmp.UserSecurityModel,
              SecurityParameters := some { UserName := p.AuthUser,
                                           AuthenticationProtocol := 0,
                                           AuthenticationPassphrase := p.AuthPass,
                                           PrivacyProtocol := gosnmp.NoPriv,
                                           PrivacyPassphrase := "" } }, ?_, rfl, rfl⟩
    simp [NewClient, v3auth, authCheck, hv, hl, hu1, hp1, ha2]

/-- Claim C4 witness: an AuthNoPriv profile whose auth passphrase is
empty and whose auth algorithm name is also unrecognized fails with
ErrBadPassword (the passphrase check takes priority). -/
theorem c4_auth_no_priv_validation_witness :
    NewClient { Version := "3", SecLevel := "AuthNoPriv", AuthUser := "u",
                AuthPass := "", AuthProto := "bogus" } connOk
      = (none, some (BuildError.validation SnmpErr.ErrBadPassword)) :=
  (c4_auth_no_priv_validation
      { Version := "3", SecLevel := "AuthNoPriv", AuthUser := "u",
        AuthPass := "", AuthProto := "bogus" } connOk rfl rfl).2.1 (by decide) rfl

/-- Claim C5: a version-3 NoAuthNoPriv profile with non-empty username
always builds successfully, whatever the four passphrase/algorithm
fields hold: the config's message-flags are NoAuthNoPriv and its
security parameters carry the username with the NoAuth and NoPriv
identifiers and empty passphrases. -/
theorem c5_no_auth_no_priv_success (p : Profile)
    (connect : ClientConfig → Option String)
    (hv : p.Version = "3") (hl : p.SecLevel = "NoAuthNoPriv") (hu : p.AuthUser ≠ "") :
    ∃ c : ClientConfig,
      NewClient p connect = (some c, (connect c).map BuildError.engine) ∧
      c.MsgFlags = gosnmp.NoAuthNoPriv ∧
      c.SecurityParameters = some { UserName := p.AuthUser,
                                    AuthenticationProtocol := gosnmp.NoAuth,
                                    AuthenticationPassphrase := "",
                                    PrivacyProtocol := gosnmp.NoPriv,
                                    PrivacyPassphrase := "" } ∧
      c.Version = gosnmp.Version3 ∧ c.SecurityModel = gosnmp.UserSecurityModel := by
  have hu1 : ¬ (p.AuthUser.length < 1) := fun h => hu ((length_lt_one_iff _).mp h)
  refine ⟨{ baseClient p with
            Version := gosnmp.Version3,
            MsgFlags := gosnmp.NoAuthNoPriv,
            SecurityModel := gosnmp.UserSecurityModel,
            SecurityParameters := some { UserName := p.AuthUser,
                                         AuthenticationProtocol := gosnmp.NoAuth,
                                         AuthenticationPassphrase := "",
                                         PrivacyProtocol := gosnmp.NoPriv,
                                         PrivacyPassphrase := "" } }, ?_, rfl, rfl, rfl, rfl⟩
  simp [NewClient, v3auth, hv, hl, hu1]

/-- Claim C5 witness: a NoAuthNoPriv profile whose passphrase and
algorithm-name fields are all malformed still builds, with
message-flags NoAuthNoPriv. -/
theorem c5_no_auth_no_priv_success_witness :
    ((NewClient { Version := "3", SecLevel := "NoAuthNoPriv", AuthUser := "u",
                  AuthPass := "junk", AuthProto := "junk",
                  PrivProto := "junk", PrivPass := "junk" } connOk).1.map
        ClientConfig.MsgFlags) = some gosnmp.NoAuthNoPriv := by
  obtain ⟨c, hc, hm, -⟩ :=
    c5_no_auth_no_priv_success
      { Version := "3", SecLevel := "NoAuthNoPriv", AuthUser := "u",
        AuthPass := "junk", AuthProto := "junk",
        PrivProto := "junk", PrivPass := "junk" } connOk rfl rfl (by decide)
  rw [hc]
  simp [hm]

/-- Claim C6: for every profile with version "1", "2" or "2c" the
build succeeds unconditionally (so no v3 field is ever validated,
and an empty community string is accepted), the community string is
copied verbatim into the config, no SecurityParameters are set, and
"2" and "2c" both select the second protocol generation while "1"
selects the first. -/
theorem c6_community_passthrough (p : Profile)
    (connect : ClientConfig → Option String)
    (hv : p.Version = "1" ∨ p.Version = "2" ∨ p.Version = "2c") :
    ∃ c : ClientConfig,
      NewClient p connect = (some c, (connect c).map BuildError.engine) ∧
      c.Community = p.Community ∧
      c.SecurityParameters = none ∧
      (p.Version = "1" → c.Version = gosnmp.Version1) ∧
      (p.Version = "2" ∨ p.Version = "2c" → c.Version = gosnmp.Version2c) := by
  rcases hv with h1 | h2
  · refine ⟨{ baseClient p with Version := gosnmp.Version1, Community := p.Community },
      ?_, rfl, rfl, fun _ => rfl, ?_⟩
    · simp [NewClient, h1]
    · intro h2
      rcases h2 with h2 | h2 <;> rw [h1] at h2 <;> simp at h2
  · have h1 : p.Version ≠ "1" := by
      rcases h2 with h2 | h2 <;> rw [h2] <;> decide
    refine ⟨{ baseClient p with Version := gosnmp.Version2c, Community := p.Community },
      ?_, rfl, rfl, fun hx => absurd hx h1, fun _ => rfl⟩
    simp [NewClient, h1, h2]

/-- Claim C6 witness: a version-2c profile's community string reaches
the config verbatim. -/
theorem c6_community_passthrough_witness :
    ((NewClient { Version := "2c", Community := "public" } connOk).1.map
        ClientConfig.Community) = some "public" := by
  obtain ⟨c, hc, hcom, -⟩ :=
    c6_community_passthrough { Version := "2c", Community := "public" } connOk
      (Or.inr (Or.inr rfl))
  rw [hc]
  simp [hcom]

/-- Claim C7, counterexample: the supplied port 70000 is non-zero, yet
the built config's port is 4464 = 70000 mod 2^16, not 70000 — the Go
conversion `uint16(p.Port)` keeps only the low 16 bits. -/
theorem c7_port_truncation_counterexample :
    ((NewClient { Version := "1", Port := 70000 } connOk).1.map ClientConfig.Port)
      = some 4464 ∧ (4464 : Int) ≠ 70000 := by
  constructor
  · rfl
  · decide

/-- Claim C7, amended: every built config's port is the supplied port
(161 substituted when the supplied port is 0) reduced to its low 16
bits; in particular port 0 yields 161, and a non-zero supplied port is
preserved exactly whenever it lies strictly between 0 and 65536. -/
theorem c7_port_amended (p : Profile) (connect : ClientConfig → Option String)
    (c : ClientConfig) (h : (NewClient p connect).1 = some c) :
    c.Port = (if p.Port = 0 then defaultPort else p.Port) % 65536 ∧
    (p.Port = 0 → c.Port = 161) ∧
    (0 < p.Port → p.Port < 65536 → c.Port = p.Port) := by
  have hb := (newClient_base p connect c h).2.1
  simp only [baseClient, uint16of] at hb
  refine ⟨hb, ?_, ?_⟩
  · intro h0
    rw [hb, if_pos h0]
    decide
  · intro hp1 hp2
    rw [hb, if_neg (by omega)]
    omega

/-- Claim C7 witness: supplied port 8161 (non-zero, below 2^16) is
preserved exactly in the built config. -/
theorem c7_port_amended_witness :
    ((NewClient { Version := "1", Port := 8161 } connOk).1.map ClientConfig.Port)
      = some 8161 := by
  have h := (c7_port_amended { Version := "1", Port := 8161 } connOk
      (ClientConfig.mk "" 8161 0 0 0 "" 0 0 none) rfl).2.2 (by decide) (by decide)
  rw [show (NewClient { Version := "1", Port := 8161 } connOk).1
        = some (ClientConfig.mk "" 8161 0 0 0 "" 0 0 none) from rfl]
  rw [Option.map_some', h]

/-- Claim C8: any profile whose version tag is none of "1", "2", "2c",
"3" fails with ErrVersion, whatever every other field holds — in
particular no v3 validation runs (an empty username still yields
ErrVersion, as the witness shows). -/
theorem c8_bad_version (p : Profile) (connect : ClientConfig → Option String)
    (h1 : p.Version ≠ "1") (h2 : p.Version ≠ "2") (h3 : p.Version ≠ "2c")
    (h4 : p.Version ≠ "3") :
    NewClient p connect = (none, some (BuildError.validation SnmpErr.ErrVersion)) := by
  simp [NewClient, h1, h2, h3, h4]

/-- Claim C8 witness: version "4" with an empty username fails with
ErrVersion, not with any v3 error. -/
theorem c8_bad_version_witness :
    NewClient { Version := "4", AuthUser := "" } connOk
      = (none, some (BuildError.validation SnmpErr.ErrVersion)) :=
  c8_bad_version { Version := "4", AuthUser := "" } connOk
    (by decide) (by decide) (by decide) (by decide)

/-- Claim C9: whenever the build returns a validation error, it
returns no client config at all, and its entire outcome is the same
for every connect function — the external engine is never invoked on a
validation failure. -/
theorem c9_validation_failure_terminal (p : Profile)
    (connect connect2 : ClientConfig → Option String) (e : SnmpErr)
    (h : (NewClient p connect).2 = some (BuildError.validation e)) :
    (NewClient p connect).1 = none ∧ NewClient p connect2 = NewClient p connect := by
  by_cases h1 : p.Version = "1"
  · simp [NewClient, h1, Option.map_eq_some'] at h
  · by_cases h2 : p.Version = "2" ∨ p.Version = "2c"
    · simp [NewClient, h1, h2, Option.map_eq_some'] at h
    · by_cases h3 : p.Version = "3"
      · rcases hr : v3auth p 0 with ⟨params, err, flags⟩
        cases err with
        | some e2 =>
          constructor <;> simp [NewClient, h1, h2, h3, hr]
        | none =>
          simp [NewClient, h1, h2, h3, hr, Option.map_eq_some'] at h
      · constructor <;> simp [NewClient, h1, h2, h3]

/-- Claim C9 witness: a profile failing validation (bad version) gives
no client, and an always-failing engine changes nothing about the
outcome. -/
theorem c9_validation_failure_terminal_witness :
    (NewClient { Version := "bogus" } connOk).1 = none ∧
    NewClient { Version := "bogus" } connBoom
      = NewClient { Version := "bogus" } connOk :=
  c9_validation_failure_terminal { Version := "bogus" } connOk connBoom
    SnmpErr.ErrVersion rfl

/-- Claim C10, counterexample: at timeout 2^60 the built config's
timeout is 0, not 2^60 seconds — the Go multiplication
`time.Duration(p.Timeout) * time.Second` overflows int64. -/
theorem c10_timeout_overflow_counterexample :
    ((NewClient { Version := "1", Timeout := 1152921504606846976 } connOk).1.map
        ClientConfig.Timeout) = some 0 ∧
    (0 : Int) ≠ 1152921504606846976 * 1000000000 := by
  constructor
  · rfl
  · decide

/-- Claim C10, amended: every built config copies the retry count
through unchanged, and its timeout is the profile's timeout times 10^9
nanoseconds reduced into signed 64-bit range — exactly the timeout
interpreted as whole seconds whenever that product fits in int64. -/
theorem c10_timeout_retries_amended (p : Profile)
    (connect : ClientConfig → Option String)
    (c : ClientConfig) (h : (NewClient p connect).1 = some c) :
    c.Retries = p.Retries ∧
    c.Timeout = int64wrap (p.Timeout * 1000000000) ∧
    (-9223372036854775808 ≤ p.Timeout * 1000000000 →
      p.Timeout * 1000000000 < 9223372036854775808 →
      c.Timeout = p.Timeout * 1000000000) := by
  obtain ⟨-, -, ht, hr⟩ := newClient_base p connect c h
  simp only [baseClient] at ht hr
  refine ⟨hr, ht, ?_⟩
  intro hb1 hb2
  rw [ht, int64wrap_of_bounds _ hb1 hb2]

/-- Claim C10 witness: timeout 5 and retries 2 become 5·10^9
nanoseconds (five seconds) and 2 in the built config. -/
theorem c10_timeout_retries_amended_witness :
    ((NewClient { Version := "1", Timeout := 5, Retries := 2 } connOk).1.map
        ClientConfig.Timeout) = some 5000000000 ∧
    ((NewClient { Version := "1", Timeout := 5, Retries := 2 } connOk).1.map
        ClientConfig.Retries) = some 2 := by
  obtain ⟨hr, -, ht⟩ := c10_timeout_retries_amended
    { Version := "1", Timeout := 5, Retries := 2 } connOk
    (ClientConfig.mk "" 161 5000000000 2 0 "" 0 0 none) rfl
  have ht2 := ht (by decide) (by decide)
  rw [show (NewClient { Version := "1", Timeout := 5, Retries := 2 } connOk).1
        = some (ClientConfig.mk "" 161 5000000000 2 0 "" 0 0 none) from rfl]
  rw [Option.map_some', Option.map_some', ht2, hr]
  exact ⟨rfl, rfl⟩

end Snmputil
